import Mathlib

set_option maxHeartbeats 1000000

/-!
Shallow embedding of the DMRG package (src/dmrg): the tiered tensor store
(MPS.py / MPS_optimized.py), the contraction environment (CONT.py), the
Lanczos eigensolver (lanczos.py) and the sweep engine (dmrg.py).

Numpy complex arrays are modelled as total functions from natural-number
indices into an arbitrary commutative ring `R` with a star operation
(complex conjugation); the array shape is carried separately as explicit
dimension arguments, and every `np.tensordot` call is translated into the
corresponding explicit finite sum with the axis bookkeeping of numpy
(result indices are the remaining axes of the first argument in order,
followed by the remaining axes of the second argument in order).
Floating-point round-off is not modelled: arithmetic is exact ring
arithmetic.  Python exceptions are modelled with `Except PyExc`.
-/

namespace DMRG

/-- A rank-2 numpy array (matrix) over the scalar ring `R`, as a total
function on indices; the shape is tracked by explicit dimension
arguments at each use site. -/
abbrev Mat (R : Type) : Type := ℕ → ℕ → R

/-- A rank-3 numpy array over `R`. -/
abbrev T3 (R : Type) : Type := ℕ → ℕ → ℕ → R

/-- A rank-4 numpy array over `R`. -/
abbrev T4 (R : Type) : Type := ℕ → ℕ → ℕ → ℕ → R

/-- Python exception kinds raised (or caught) by the code under study. -/
inductive PyExc where
  | typeError
  | valueError
  | arpackNoConvergence
  | linAlgError
  | keyError
  | indexError
  | fileNotFoundError
deriving DecidableEq, Repr

/-- A numpy array as seen by the tensor store: the store logic only inspects
its byte size (`ten.nbytes`); `val` is an opaque payload identifying the
tensor's contents. -/
structure NpTensor where
  nbytes : ℕ
  val : ℤ
deriving DecidableEq, Repr

/-- Pointwise update of a key-to-tensor map (a Python dict entry update). -/
def updO (f : ℕ → Option NpTensor) (i : ℕ) (t : NpTensor) : ℕ → Option NpTensor :=
  fun j => if j = i then some t else f j

/-- State of the `MPS` storage object (MPS.py): the resident dictionary
`ram.mps`, the running byte counter `ram.current_size`, the budget
`ram.max`, the overflow tier `disk` (a `.dat`/`.txt` pair per key, modelled
as present iff the key was disk-written), and the bond-spectrum dict `S`. -/
structure MpsStore where
  ram : ℕ → Option NpTensor
  currentSize : ℤ
  maxRam : ℤ
  disk : ℕ → Option NpTensor
  S : ℕ → Option NpTensor

/-- MPS.write (MPS.py lines 93-105).  The conditional expression
`((current_size > max - tensor_size) and disk.write or ram.write)(i, ten)`
routes to the overflow tier exactly when `current_size > max - tensor_size`,
and the counter update multiplies by the complementary test
`current_size <= max - tensor_size`.  Neither `ram.write` (a dict update)
nor `disk.write` (a memmap rewrite) raises `ValueError` or `KeyError` here,
so the two `except` branches of the source are unreachable and the routed
write leaves the resident dictionary untouched on the overflow path. -/
def MPS.write (st : MpsStore) (i : ℕ) (ten : NpTensor) : MpsStore :=
  if st.maxRam - (ten.nbytes : ℤ) < st.currentSize then
    { st with disk := updO st.disk i ten }
  else
    { st with ram := updO st.ram i ten, currentSize := st.currentSize + (ten.nbytes : ℤ) }

/-- MPS.read (MPS.py lines 107-111): try the resident dict first; a
`KeyError` falls back to `disk.read`, which opens the `.txt` shape sidecar
and raises `FileNotFoundError` when the key was never disk-written. -/
def MPS.read (st : MpsStore) (i : ℕ) : Except PyExc NpTensor :=
  match st.ram i with
  | some t => Except.ok t
  | none =>
    match st.disk i with
    | some t => Except.ok t
    | none => Except.error PyExc.fileNotFoundError

/-- MPS.writeS (MPS.py lines 113-114): a plain dict update, no tiering. -/
def MPS.writeS (st : MpsStore) (i : ℕ) (ten : NpTensor) : MpsStore :=
  { st with S := updO st.S i ten }

/-- The store side effects of dmrg.step2sites (dmrg.py lines 91-93): write
the two new site tensors at `site` and `site+1` and the new bond spectrum
at `site`.  The computed tensors (from the Lanczos ground vector and its
SVD) enter as opaque arguments; no other MPS store operation occurs in the
call (in particular `MPS.delete` is never invoked). -/
def step2sitesStoreEffect (st : MpsStore) (site : ℕ) (tenL tenR spec : NpTensor) : MpsStore :=
  MPS.writeS (MPS.write (MPS.write st site tenL) (site + 1) tenR) site spec

/-- State of `MPS_InMemory` (MPS_optimized.py): the in-memory dict
`_tensors`, the checkpoint files on disk, and the `checkpoint` flag. -/
structure InMemStore where
  tensors : ℕ → Option NpTensor
  files : ℕ → Option NpTensor
  checkpoint : Bool

/-- MPS_InMemory.read (MPS_optimized.py lines 115-129): a missing key
raises `IndexError` when checkpointing is off, and otherwise attempts
`_load_tensor_from_checkpoint`, whose `open` raises `FileNotFoundError`
when no checkpoint file exists. -/
def MPS_InMemory.read (m : InMemStore) (i : ℕ) : Except PyExc NpTensor :=
  match m.tensors i with
  | some t => Except.ok t
  | none =>
    if m.checkpoint then
      match m.files i with
      | some t => Except.ok t
      | none => Except.error PyExc.fileNotFoundError
    else Except.error PyExc.indexError

/-- The singular-value retention of dmrg.step2sites (dmrg.py lines 83-86):
`if len(c) > chi: c = c[:chi]`.  `c` is the list of singular values
returned by the SVD (all of them, zeros included); no cutoff is applied. -/
def svdKeep {α : Type} (chi : ℕ) (c : List α) : List α :=
  if chi < c.length then c.take chi else c

/-- The try/except structure of EffH.lanczos_grd (lanczos.py lines
104-121).  `tri` is the outcome of the `eigh_tridiagonal` attempt together
with the subsequent eigenvector reconstruction, `dense` the outcome of the
`np.linalg.eigh` body of the first handler, and `rayleigh` the value
`(psi0.conj() @ matvec(psi0), psi0)` built by the second handler.  The two
`except` clauses both guard the `try` suite only: an exception raised
inside the `ValueError` handler propagates, as does any exception from the
`try` suite other than `ValueError` and `ArpackNoConvergence`. -/
def lanczosGrd {A : Type} (tri : Except PyExc A) (dense : Except PyExc A) (rayleigh : A) :
    Except PyExc A :=
  match tri with
  | Except.ok a => Except.ok a
  | Except.error PyExc.valueError => dense
  | Except.error PyExc.arpackNoConvergence => Except.ok rayleigh
  | Except.error e => Except.error e

/-- Number of required positional parameters of EffH.__init__ beyond
`self` (lanczos.py line 7: `def __init__(self, L, R, H, site, k=300)`),
namely `L`, `R`, `H`, `site`. -/
def effHRequiredArgs : ℕ := 4

/-- Number of defaulted positional parameters of EffH.__init__ (`k`). -/
def effHDefaultedArgs : ℕ := 1

/-- Number of positional arguments that dmrg.infinite passes when it
constructs the effective Hamiltonian (dmrg.py line 35:
`EffH(env_left, env_right, self.h)`). -/
def effHArgsInInfinite : ℕ := 3

/-- Python positional-argument binding: a call with `given` arguments
against `required` mandatory and `defaulted` optional parameters raises
`TypeError` when too few or too many arguments are supplied. -/
def pyCallBind (given required defaulted : ℕ) : Except PyExc Unit :=
  if given < required ∨ required + defaulted < given then Except.error PyExc.typeError
  else Except.ok ()

/-- The growth loop of dmrg.infinite (dmrg.py lines 33-52):
`for i in range(1, L//2)` runs `L//2 - 1` iterations, each of which begins
by constructing `EffH(env_left, env_right, self.h)`.  The accumulator
counts completed growth steps; a `TypeError` from the constructor binding
aborts the loop. -/
def infGrowthLoop : ℕ → ℕ → Except PyExc ℕ
  | 0, done => Except.ok done
  | fuel + 1, done =>
    match pyCallBind effHArgsInInfinite effHRequiredArgs effHDefaultedArgs with
    | Except.error e => Except.error e
    | Except.ok _ => infGrowthLoop fuel (done + 1)

/-- dmrg.infinite (dmrg.py lines 24-56), reduced to its loop accounting:
after the two full boundary contractions `cont.left(0)` and
`cont.right(L-1)` succeed, the growth loop is entered; the result is the
number of completed growth steps or the first uncaught exception. -/
def dmrgInfiniteSteps (L : ℕ) : Except PyExc ℕ :=
  infGrowthLoop (L / 2 - 1) 0

/-- MPS.left_ten (MPS.py lines 130-140): `ten = np.zeros((d, a//d, b))`
and the loop `ten[i0, i1, :] = mat[i1*d + i0, :]`, as an index formula
(entries outside the array shape are the `np.zeros` fill). -/
def left_ten {R : Type} [CommRing R] (d a b : ℕ) (mat : Mat R) : T3 R :=
  fun i0 i1 j => if i0 < d ∧ i1 < a / d ∧ j < b then mat (i1 * d + i0) j else 0

/-- MPS_InMemory.left_ten (MPS_optimized.py lines 221-237):
`mat.reshape(a//d, d, b).transpose(1, 0, 2)`.  Row-major reshape sends
index `(x, y, z)` to `mat[x*d + y, z]`, and the transpose reads entry
`(i0, i1, j)` from `(i1, i0, j)`, giving `mat[i1*d + i0, j]`. -/
def left_ten_opt {R : Type} [CommRing R] (d a b : ℕ) (mat : Mat R) : T3 R :=
  fun i0 i1 j => if i0 < d ∧ i1 < a / d ∧ j < b then mat (i1 * d + i0) j else 0

/-- MPS.right_ten (MPS.py lines 143-153): `ten = np.zeros((d, a, b//d))`
and the loop `ten[i0, :, i2] = mat[:, i0*(b//d) + i2]`. -/
def right_ten {R : Type} [CommRing R] (d a b : ℕ) (mat : Mat R) : T3 R :=
  fun i0 i1 i2 => if i0 < d ∧ i1 < a ∧ i2 < b / d then mat i1 (i0 * (b / d) + i2) else 0

/-- MPS_InMemory.right_ten (MPS_optimized.py lines 239-255):
`mat.reshape(a, b//d, d).transpose(2, 0, 1)`.  Row-major reshape sends
`(x, y, z)` to `mat[x, y*d + z]`, and the transpose reads entry
`(i0, i1, i2)` from `(i1, i2, i0)`, giving `mat[i1, i2*d + i0]`. -/
def right_ten_opt {R : Type} [CommRing R] (d a b : ℕ) (mat : Mat R) : T3 R :=
  fun i0 i1 i2 => if i0 < d ∧ i1 < a ∧ i2 < b / d then mat i1 (i2 * d + i0) else 0

/-- Direction tag of the contraction environment (CONT.py:
`dir = {'l':'/LEFT','r':'/RIGHT'}`, `count = {'l':0,'r':1}`). -/
inductive Dir where
  | l
  | r
deriving DecidableEq, Repr

/-- The `count` dictionary of CONT (CONT.py line 83). -/
def Dir.count : Dir → ℕ
  | Dir.l => 0
  | Dir.r => 1

/-- The chain data read by CONT: physical dimension `d`, MPO virtual bond
dimension `w`, the bond dimension `chi i` between sites `i` and `i+1`,
the boundary matrices `m0 = mps.read(0)` and `mN = mps.read(L-1)`, the
bulk site tensors `mps i` (physical, left bond, right bond), the operator
provider `mpo i = h.mpo(p=i)` (physical-in, physical-out, left virtual,
right virtual) with its boundary vectors `Wl = h.Wl()` and
`Wr = h.Wr()` (physical, physical, virtual), and the chain length `L`. -/
structure Chain (R : Type) where
  d : ℕ
  w : ℕ
  chi : ℕ → ℕ
  m0 : Mat R
  mN : Mat R
  mps : ℕ → T3 R
  mpo : ℕ → T4 R
  Wl : T3 R
  Wr : T3 R
  L : ℕ

namespace CONT

variable {R : Type} [CommRing R] [StarRing R]

/-- First contraction of the leftward body, CONT.py line 126 and line 149:
`np.tensordot(res, mps_site, (0, 1))` — contract the environment's ket
bond (axis 0, size `a`) with the site tensor's left bond (axis 1).
Result axes: (mpo bond, bra bond, physical, right bond). -/
def tdL1 (a : ℕ) (E : T3 R) (M : T3 R) : T4 R :=
  fun m a2 p b => ∑ x ∈ Finset.range a, E x m a2 * M p x b

/-- Second contraction of the leftward body, CONT.py line 127 and line
150: `np.tensordot(r, mpo_site, ([0, 2], [2, 0]))` — contract the mpo
bond (size `w`) with the operator's left virtual bond and the physical
index (size `d`) with the operator's physical-in index.
Result axes: (bra bond, right bond, physical-out, right virtual). -/
def tdL2 (w d : ℕ) (r : T4 R) (W : T4 R) : T4 R :=
  fun a2 b q m2 => ∑ m ∈ Finset.range w, ∑ p ∈ Finset.range d, r m a2 p b * W p q m m2

/-- Third contraction of the leftward body, CONT.py line 128 and line
151: `np.tensordot(r, np.conj(mps_site), ([0, 2], [1, 0]))` — contract
the bra bond (size `a`) with the conjugated site tensor's left bond and
the physical-out index (size `d`) with its physical index.
Result axes: (ket bond, mpo bond, bra bond). -/
def tdL3 (a d : ℕ) (r : T4 R) (M : T3 R) : T3 R :=
  fun b m2 b2 => ∑ a2 ∈ Finset.range a, ∑ q ∈ Finset.range d, r a2 b q m2 * star (M q a2 b2)

/-- One leftward extension step: the loop body of CONT.left (CONT.py
lines 126-128), which is also, tensordot call for tensordot call, the
body of CONT.add in direction 'l' (CONT.py lines 149-151 with
`count['l'] = 0`).  `a` is the bond dimension of the extended edge. -/
def stepL (a w d : ℕ) (M : T3 R) (W : T4 R) (E : T3 R) : T3 R :=
  tdL3 a d (tdL2 w d (tdL1 a E M) W) M

/-- First contraction of the rightward body, CONT.py line 139 and line
149 (`count['r'] = 1`): `np.tensordot(res, mps_site, (0, 2))` — contract
the environment's ket bond (size `a`) with the site tensor's right bond. -/
def tdR1 (a : ℕ) (E : T3 R) (M : T3 R) : T4 R :=
  fun m a2 p b => ∑ x ∈ Finset.range a, E x m a2 * M p b x

/-- Second contraction of the rightward body, CONT.py line 140 and line
150: `np.tensordot(r, mpo_site, ([0, 2], [3, 0]))` — contract the mpo
bond with the operator's right virtual bond and the physical index with
its physical-in index. -/
def tdR2 (w d : ℕ) (r : T4 R) (W : T4 R) : T4 R :=
  fun a2 b q m1 => ∑ m ∈ Finset.range w, ∑ p ∈ Finset.range d, r m a2 p b * W p q m1 m

/-- Third contraction of the rightward body, CONT.py line 141 and line
151: `np.tensordot(r, np.conj(mps_site), ([0, 2], [2, 0]))`. -/
def tdR3 (a d : ℕ) (r : T4 R) (M : T3 R) : T3 R :=
  fun b m1 b2 => ∑ a2 ∈ Finset.range a, ∑ q ∈ Finset.range d, r a2 b q m1 * star (M q b2 a2)

/-- One rightward extension step: the loop body of CONT.right (CONT.py
lines 139-141), also the body of CONT.add in direction 'r'. -/
def stepR (a w d : ℕ) (M : T3 R) (W : T4 R) (E : T3 R) : T3 R :=
  tdR3 a d (tdR2 w d (tdR1 a E M) W) M

/-- The seed of CONT.left (CONT.py line 124):
`np.tensordot(np.tensordot(mps.read(0), h.Wl(), (0, 0)), np.conj(mps.read(0)), (1, 0))`. -/
def leftBase (c : Chain R) : T3 R :=
  fun j m j2 =>
    ∑ y ∈ Finset.range c.d, (∑ x ∈ Finset.range c.d, c.m0 x j * c.Wl x y m) * star (c.m0 y j2)

/-- CONT.left (CONT.py lines 119-130): contract all tensors left of
`site`, `site` included, by folding the loop body over sites `1..site`. -/
def left (c : Chain R) : ℕ → T3 R
  | 0 => leftBase c
  | s + 1 => stepL (c.chi s) c.w c.d (c.mps (s + 1)) (c.mpo (s + 1)) (left c s)

/-- The seed of CONT.right (CONT.py line 137):
`np.tensordot(np.tensordot(mps.read(L-1), h.Wr(), (0, 0)), np.conj(mps.read(L-1)), (1, 0))`. -/
def rightBase (c : Chain R) : T3 R :=
  fun j m j2 =>
    ∑ y ∈ Finset.range c.d, (∑ x ∈ Finset.range c.d, c.mN x j * c.Wr x y m) * star (c.mN y j2)

/-- The loop of CONT.right indexed by the number `t` of completed
iterations: after `t` iterations the environment covers sites
`L-1-t .. L-1`, and iteration `t+1` contracts in site `L-2-t`
(CONT.py lines 138-141 with `i = t+1`, site `L-1-i`). -/
def rightAux (c : Chain R) : ℕ → T3 R
  | 0 => rightBase c
  | t + 1 =>
    stepR (c.chi (c.L - 2 - t)) c.w c.d (c.mps (c.L - 2 - t)) (c.mpo (c.L - 2 - t)) (rightAux c t)

/-- CONT.right (CONT.py lines 132-143): contract all tensors right of
`site`, `site` included — `L-1-site` loop iterations from the seed. -/
def right (c : Chain R) (site : ℕ) : T3 R :=
  rightAux c (c.L - 1 - site)

/-- CONT.add (CONT.py lines 146-154): read the stored environment at
`site - (-1)**count[dir]` (the neighbour towards the chain end), extend it
by the three tensordots over site `site`, and store the result back under
`site` in the dictionary of direction `dir`.  The contraction bond
dimension is the size of the contracted mps axis: `chi (site-1)` for a
leftward add, `chi site` for a rightward add. -/
def add (c : Chain R) (st : Dir → ℕ → T3 R) (site : ℕ) (dir : Dir) : Dir → ℕ → T3 R :=
  let ten :=
    match dir with
    | Dir.l => stepL (c.chi (site - 1)) c.w c.d (c.mps site) (c.mpo site) (st Dir.l (site - 1))
    | Dir.r => stepR (c.chi site) c.w c.d (c.mps site) (c.mpo site) (st Dir.r (site + 1))
  fun d' j => if d' = dir ∧ j = site then ten else st d' j

/-- `N` successive leftward CONT.add calls starting above a stored
boundary at site `s`: adds at sites `s+1, s+2, ..., s+N` (the sweep
pattern of dmrg.py lines 51 and 96). -/
def addIterL (c : Chain R) (st : Dir → ℕ → T3 R) (s : ℕ) : ℕ → (Dir → ℕ → T3 R)
  | 0 => st
  | n + 1 => add c (addIterL c st s n) (s + n + 1) Dir.l

/-- `N` successive rightward CONT.add calls starting below a stored
boundary at site `s`: adds at sites `s-1, s-2, ..., s-N` (the sweep
pattern of dmrg.py lines 52 and 99). -/
def addIterR (c : Chain R) (st : Dir → ℕ → T3 R) (s : ℕ) : ℕ → (Dir → ℕ → T3 R)
  | 0 => st
  | n + 1 => add c (addIterR c st s n) (s - (n + 1)) Dir.r

end CONT

/-- The numeric primitives used by EffH.lanc_iter_old (lanczos.py):
`matvec` is EffH.matvec, `nrm` is np.linalg.norm, `dot x y` is the 1-D
inner product `x @ y` (equally `np.inner(x, y)`), `cnj` is np.conj on a
vector, `re` extracts the real part of a scalar, `smul`/`sub` are the
vector-space operations of numpy arrays.  The vectors live in an abstract
type `V` and the scalars in a linear ordered field `R` (exact arithmetic
in place of floating point). -/
structure LancOps (R V : Type) where
  matvec : V → V
  nrm : V → R
  dot : V → V → R
  cnj : V → V
  re : R → R
  smul : R → V → V
  sub : V → V → V

/-- The deflation threshold of the Lanczos iteration (lanczos.py line 81:
`if beta < 1e-8`). -/
def lancEps (R : Type) [LinearOrderedField R] : R := 1 / 10 ^ 8

/-- Loop state of EffH.lanc_iter_old: the current residual `psi`, the most
recent basis vector `vlast` (= `vecs[-1]`, which becomes `vecs[-2]` after
the next append), the full Krylov basis list `vecs`, and the tridiagonal
matrix `T` as an entry function. -/
structure LancState (R V : Type) where
  psi : V
  vlast : V
  vecs : List V
  T : ℕ → ℕ → R

/-- Entry update of the tridiagonal matrix `T` (a numpy array store). -/
def upd2 {R : Type} (f : ℕ → ℕ → R) (i j : ℕ) (v : R) : ℕ → ℕ → R :=
  fun a b => if a = i ∧ b = j then v else f a b

/-- The full re-orthogonalization of the `exc == 'on'` branch (lanczos.py
lines 86-90): `psi_o` aliases `psi`, so each in-place subtraction
`psi_o -= (psi.conj() @ vecs[j]) * vecs[j]` recomputes the coefficient
against the already-updated vector — a sequential fold over the basis. -/
def lancReorth {R V : Type} (ops : LancOps R V) (vecs : List V) (psi : V) : V :=
  vecs.foldl (fun p v => ops.sub p (ops.smul (ops.dot (ops.cnj p) v) v)) psi

/-- The loop body of EffH.lanc_iter_old at iteration `i` (lanczos.py lines
84-96), taken when the deflation test failed: normalize the residual
(either `psi /= beta` or the re-orthogonalized, re-normalized vector),
append it to the basis, apply `matvec`, compute
`alpha = np.inner(vecs[-1].conj(), psi).real`, subtract
`alpha * vecs[-1] + beta * vecs[-2]`, and set `T[i,i] = alpha`,
`T[i-1,i] = T[i,i-1] = beta`. -/
def lancBody {R V : Type} [LinearOrderedField R] (ops : LancOps R V) (excOn : Bool) (i : ℕ)
    (st : LancState R V) : LancState R V :=
  let beta := ops.nrm st.psi
  let psiN :=
    if excOn then
      let po := lancReorth ops st.vecs st.psi
      ops.smul (1 / ops.nrm po) po
    else ops.smul (1 / beta) st.psi
  let psi1 := ops.matvec psiN
  let alpha := ops.re (ops.dot (ops.cnj psiN) psi1)
  { psi := ops.sub (ops.sub psi1 (ops.smul alpha psiN)) (ops.smul beta st.vlast)
    vlast := psiN
    vecs := st.vecs ++ [psiN]
    T := upd2 (upd2 (upd2 st.T i i alpha) (i - 1) i beta) i (i - 1) beta }

/-- The pre-loop part of EffH.lanc_iter_old (lanczos.py lines 70-77):
normalize `psi0`, seed the basis, zero-initialize `T`, apply `matvec`,
set `alpha = T[0,0] = np.inner(psi0.conj(), psi).real`, and subtract
`alpha * vecs[-1]`. -/
def lancInit {R V : Type} [LinearOrderedField R] (ops : LancOps R V) (psi0 : V) :
    LancState R V :=
  let p0 := ops.smul (1 / ops.nrm psi0) psi0
  let psi1 := ops.matvec p0
  let alpha := ops.re (ops.dot (ops.cnj p0) psi1)
  { psi := ops.sub psi1 (ops.smul alpha p0)
    vlast := p0
    vecs := [p0]
    T := upd2 (fun _ _ => 0) 0 0 alpha }

/-- The loop `for i in range(1, k)` of EffH.lanc_iter_old (lanczos.py
lines 79-96) with `fuel = k - i` iterations remaining.  The result
records the side length of the returned tridiagonal matrix (either `k`
when the loop completes, or `i` after the deflation break
`T = T[:i, :i]`), the entries of `T`, and the Krylov basis. -/
def lancLoop {R V : Type} [LinearOrderedField R] (ops : LancOps R V) (excOn : Bool) (k : ℕ) :
    ℕ → ℕ → LancState R V → ℕ × (ℕ → ℕ → R) × List V
  | 0, _, st => (k, st.T, st.vecs)
  | fuel + 1, i, st =>
    if ops.nrm st.psi < lancEps R then (i, st.T, st.vecs)
    else lancLoop ops excOn k fuel (i + 1) (lancBody ops excOn i st)

/-- EffH.lanc_iter_old (lanczos.py lines 69-97): pre-loop followed by the
`k - 1` iterations `i = 1 .. k-1`. -/
def lancIterOld {R V : Type} [LinearOrderedField R] (ops : LancOps R V) (excOn : Bool) (k : ℕ)
    (psi0 : V) : ℕ × (ℕ → ℕ → R) × List V :=
  lancLoop ops excOn k (k - 1) 1 (lancInit ops psi0)

/-- The state trajectory of the loop of EffH.lanc_iter_old when no
deflation break occurs: `lancTrajFrom ops excOn i st n` is the state
after `n` further loop bodies starting from state `st` at loop counter
`i`; in particular the residual test of iteration `i + n` examines
`(lancTrajFrom ops excOn i st n).psi`. -/
def lancTrajFrom {R V : Type} [LinearOrderedField R] (ops : LancOps R V) (excOn : Bool) (i : ℕ)
    (st : LancState R V) : ℕ → LancState R V
  | 0 => st
  | n + 1 => lancBody ops excOn (i + n) (lancTrajFrom ops excOn i st n)

/-! Concrete instances used by the witness and counterexample theorems. -/

/-- A 60-byte tensor with payload 1 (first write of the stale-copy run). -/
def npA : NpTensor := ⟨60, 1⟩

/-- A 60-byte tensor with payload 2 (second write of the stale-copy run). -/
def npB : NpTensor := ⟨60, 2⟩

/-- A 50-byte tensor with payload 3. -/
def npC : NpTensor := ⟨50, 3⟩

/-- A 40-byte tensor with payload 4. -/
def npD : NpTensor := ⟨40, 4⟩

/-- A 20-byte tensor with payload 5. -/
def npE : NpTensor := ⟨20, 5⟩

/-- A left site tensor written by the concrete step2sites run. -/
def npL : NpTensor := ⟨16, 6⟩

/-- A right site tensor written by the concrete step2sites run. -/
def npR : NpTensor := ⟨16, 7⟩

/-- The bond spectrum stored at the previous bond before the step. -/
def npS1 : NpTensor := ⟨8, 8⟩

/-- The new bond spectrum written at the active bond. -/
def npS2 : NpTensor := ⟨8, 9⟩

/-- A store whose resident tier already holds `npA` under key 5 and whose
byte counter (60) exceeds the remaining budget for another 60-byte write
(budget 100): the next write of key 5 is routed to the overflow tier. -/
def stC2 : MpsStore :=
  { ram := updO (fun _ => none) 5 npA
    currentSize := 60
    maxRam := 100
    disk := fun _ => none
    S := fun _ => none }

/-- A store with the same exhausted budget but no resident copy of the
written key. -/
def stC2f : MpsStore :=
  { ram := fun _ => none
    currentSize := 60
    maxRam := 100
    disk := fun _ => none
    S := fun _ => none }

/-- A store holding `npC` under key 7 with 50 of 80 budget bytes used:
a 40-byte write of key 7 is routed to the overflow tier. -/
def stC5 : MpsStore :=
  { ram := updO (fun _ => none) 7 npC
    currentSize := 50
    maxRam := 80
    disk := fun _ => none
    S := fun _ => none }

/-- An empty store with ample budget: writes stay resident. -/
def stC5w : MpsStore :=
  { ram := fun _ => none
    currentSize := 0
    maxRam := 100
    disk := fun _ => none
    S := fun _ => none }

/-- A store in which key 3 was never written to either tier. -/
def stC8 : MpsStore :=
  { ram := updO (updO (fun _ => none) 0 npE) 9 npE
    currentSize := 0
    maxRam := 100
    disk := fun _ => none
    S := fun _ => none }

/-- An in-memory store (checkpointing off) in which key 3 was never
written. -/
def mC8 : InMemStore :=
  { tensors := updO (fun _ => none) 0 npE
    files := fun _ => none
    checkpoint := false }

/-- A store holding a spectrum at bond 1 when the active bond moves to 2. -/
def stC9 : MpsStore :=
  { ram := fun _ => none
    currentSize := 0
    maxRam := 1000
    disk := fun _ => none
    S := updO (fun _ => none) 1 npS1 }

/-- The concrete 1 x 4 matrix `[[0, 1, 2, 3]]` on which the two right_ten
variants disagree. -/
def matW : Mat ℤ := fun _ j => (j : ℤ)

/-- A small concrete chain (all tensors zero, length 8) for the
incremental-versus-full environment witness. -/
def chainW : Chain ℤ :=
  { d := 2
    w := 3
    chi := fun _ => 2
    m0 := fun _ _ => 0
    mN := fun _ _ => 0
    mps := fun _ => fun _ _ _ => 0
    mpo := fun _ => fun _ _ _ _ => 0
    Wl := fun _ _ _ => 0
    Wr := fun _ _ _ => 0
    L := 8 }

/-- An environment store for `chainW` whose entries agree with the full
recomputations, as assumed by the incremental-equals-full theorem. -/
def stW : Dir → ℕ → T3 ℤ := fun d j =>
  match d with
  | Dir.l => CONT.left chainW j
  | Dir.r => CONT.right chainW j

/-- Concrete Lanczos numerics over `ℚ` whose norm is identically zero, so
the deflation test fires at the first loop iteration. -/
def wOps : LancOps ℚ ℚ :=
  { matvec := fun v => v
    nrm := fun _ => 0
    dot := fun _ _ => 0
    cnj := fun v => v
    re := fun x => x
    smul := fun a v => a * v
    sub := fun a b => a - b }

/-! Theorems settling the claims. -/

/-- C1: dmrg.infinite (dmrg.py line 35) constructs the effective
Hamiltonian as `EffH(env_left, env_right, self.h)` — three positional
arguments — while `EffH.__init__` (lanczos.py line 7) requires four
(`L`, `R`, `H`, `site`).  Evaluating the modelled call on a length-6
chain shows the first growth iteration raises `TypeError` instead of
completing the `L//2 - 1` growth steps and returning the energy array
the claim (and the spec) describe. -/
theorem infinite_effH_arity_typeerror :
    dmrgInfiniteSteps 6 = Except.error PyExc.typeError := rfl

/-- C10: evaluation of the two right-canonical reshapes at the concrete
1 x 4 matrix `[[0, 1, 2, 3]]` with `d = 2`.  MPS.right_ten places
`mat[0, 1] = 1` at entry `(0, 0, 1)` while MPS_InMemory.right_ten places
`mat[0, 2] = 2` there, contradicting the documented backward
compatibility of the optimized class. -/
theorem right_ten_optimized_diverges :
    right_ten 2 1 4 matW 0 0 1 = 1 ∧ right_ten_opt 2 1 4 matW 0 0 1 = 2 := by
  constructor <;> decide

/-- C3 counterexample: for the singular-value list `[1, 0]` (the spectrum
of the rank-one matrix `diag(1, 0)`), cap `chi = 10` and cutoff `1/2`,
the retention of dmrg.step2sites keeps both values: the retained count is
2, not `min(count exceeding the cutoff, chi) = 1`, and the retained value
`0` is below the cutoff. -/
theorem truncation_cutoff_claim_false :
    ¬ (((svdKeep 10 [(1 : ℚ), 0]).length
          = min (([(1 : ℚ), 0].filter (fun v => 1 / 2 < v)).length) 10)
        ∧ ∀ v ∈ svdKeep 10 [(1 : ℚ), 0], 1 / 2 < v) := by
  intro h
  have h0 : (0 : ℚ) ∈ svdKeep 10 [(1 : ℚ), 0] := by
    show (0 : ℚ) ∈ [(1 : ℚ), 0]
    simp
  have := h.2 0 h0
  norm_num at this

/-- C3 (amended): dmrg.step2sites retains `min(len(c), chi)` singular
values — the slice `c[:chi]` is applied exactly when `len(c) > chi` and
no cutoff filtering occurs; in particular the retained rank never
exceeds `chi`. -/
theorem truncation_retained_rank_min {α : Type} (chi : ℕ) (c : List α) :
    (svdKeep chi c).length = min c.length chi := by
  unfold svdKeep
  split <;> simp [List.length_take] <;> omega

/-- C6 counterexample: when `eigh_tridiagonal` raises `ValueError` and the
dense fallback `np.linalg.eigh` then fails (`LinAlgError`), lanczos_grd
propagates the exception instead of degrading to the Rayleigh quotient:
the two `except` clauses guard only the `try` suite. -/
theorem dense_fallback_failure_propagates :
    lanczosGrd (Except.error PyExc.valueError) (Except.error PyExc.linAlgError) (0 : ℕ)
      = Except.error PyExc.linAlgError := rfl

/-- C6 (amended): the exception semantics of EffH.lanczos_grd — a
successful tridiagonal solve is returned; a `ValueError` from it selects
the dense fallback, whose own failure propagates; an
`ArpackNoConvergence` (and only that) yields the Rayleigh-quotient
degraded result; any other exception, such as the `LinAlgError` a
convergence failure of `eigh_tridiagonal` actually raises, propagates
uncaught. -/
theorem lanczos_grd_exception_semantics {A : Type} (dense : Except PyExc A) (r a : A) :
    lanczosGrd (Except.ok a) dense r = Except.ok a
    ∧ lanczosGrd (Except.error PyExc.valueError) dense r = dense
    ∧ lanczosGrd (Except.error PyExc.arpackNoConvergence) dense r = Except.ok r
    ∧ lanczosGrd (Except.error PyExc.linAlgError) dense r = Except.error PyExc.linAlgError :=
  ⟨rfl, rfl, rfl, rfl⟩

/-- C2 counterexample: starting from a store whose resident tier holds
`npA` under key 5 with 60 of 100 budget bytes used, writing the 60-byte
tensor `npB` under key 5 is routed to the overflow tier (60 > 100 - 60),
yet the stale resident copy survives and a read returns it instead of the
most recently written tensor. -/
theorem write_overflow_keeps_stale_resident :
    (MPS.write stC2 5 npB).ram 5 = some npA
    ∧ MPS.read (MPS.write stC2 5 npB) 5 = Except.ok npA
    ∧ npA ≠ npB := by
  refine ⟨rfl, rfl, by decide⟩

/-- C2 (amended): an overflow-routed write evicts nothing — the stale-copy
cleanup sits in an unreachable `except ValueError` handler — so the tier
consistency the claim states holds only when the key has no resident
copy: then the key resolves solely to the overflow tier and a read
returns the newly written tensor. -/
theorem write_overflow_consistent_when_fresh (st : MpsStore) (i : ℕ) (t : NpTensor)
    (hover : st.maxRam - (t.nbytes : ℤ) < st.currentSize) (hfresh : st.ram i = none) :
    (MPS.write st i t).ram i = none
    ∧ (MPS.write st i t).disk i = some t
    ∧ MPS.read (MPS.write st i t) i = Except.ok t := by
  unfold MPS.write MPS.read
  rw [if_pos hover]
  refine ⟨hfresh, ?_, ?_⟩
  · simp [updO]
  · simp [hfresh, updO]

/-- Witness for the amended C2 theorem at a concrete over-budget store
with no resident copy of the written key. -/
theorem write_overflow_consistent_when_fresh_witness :
    (stC2f.maxRam - (npB.nbytes : ℤ) < stC2f.currentSize)
    ∧ MPS.read (MPS.write stC2f 9 npB) 9 = Except.ok npB :=
  ⟨by decide, (write_overflow_consistent_when_fresh stC2f 9 npB (by decide) rfl).2.2⟩

/-- C5 counterexample: with `npC` resident under key 7 and 50 of 80
budget bytes used, writing the 40-byte tensor `npD` under key 7 goes to
the overflow tier and the immediate read-back returns the stale `npC`,
not the tensor just written. -/
theorem roundtrip_fails_with_stale_resident :
    MPS.read (MPS.write stC5 7 npD) 7 = Except.ok npC ∧ npC ≠ npD :=
  ⟨rfl, by decide⟩

/-- C5 (amended): the write/read round trip holds whenever the write
stays within budget (resident route) or the key has no resident copy
(fresh overflow route); dtype fidelity of the overflow tier is not
modelled, so the overflow case is exact here. -/
theorem roundtrip_read_after_write (st : MpsStore) (i : ℕ) (t : NpTensor)
    (h : st.currentSize ≤ st.maxRam - (t.nbytes : ℤ) ∨ st.ram i = none) :
    MPS.read (MPS.write st i t) i = Except.ok t := by
  unfold MPS.write MPS.read
  rcases h with h | h
  · rw [if_neg (not_lt.mpr h)]
    simp [updO]
  · by_cases hc : st.maxRam - (t.nbytes : ℤ) < st.currentSize
    · rw [if_pos hc]
      simp [h, updO]
    · rw [if_neg hc]
      simp [updO]

/-- Witness for the amended C5 theorem: a within-budget write of `npE`
into an empty store reads back exactly. -/
theorem roundtrip_read_after_write_witness :
    (stC5w.currentSize ≤ stC5w.maxRam - (npE.nbytes : ℤ))
    ∧ MPS.read (MPS.write stC5w 3 npE) 3 = Except.ok npE :=
  ⟨by decide, roundtrip_read_after_write stC5w 3 npE (Or.inl (by decide))⟩

/-- C8: a key written to neither tier fails on read.  The tiered store
raises `FileNotFoundError` (the `KeyError` of the resident dict falls
through to `disk.read`, whose shape-sidecar `open` fails), and
MPS_InMemory raises `IndexError` without checkpointing or
`FileNotFoundError` with it — in every case a NotFound condition, never a
silently returned value. -/
theorem read_missing_key_errors (st : MpsStore) (i : ℕ) (m : InMemStore) (j : ℕ)
    (h1 : st.ram i = none) (h2 : st.disk i = none)
    (h3 : m.tensors j = none) (h4 : m.files j = none) :
    MPS.read st i = Except.error PyExc.fileNotFoundError
    ∧ MPS_InMemory.read m j
        = Except.error (if m.checkpoint then PyExc.fileNotFoundError else PyExc.indexError) := by
  constructor
  · unfold MPS.read
    rw [h1, h2]
  · unfold MPS_InMemory.read
    rw [h3]
    cases hc : m.checkpoint <;> simp [h4]

/-- Witness for C8 at concrete stores in which key 3 was never written. -/
theorem read_missing_key_errors_witness :
    stC8.ram 3 = none ∧ mC8.tensors 3 = none
    ∧ MPS.read stC8 3 = Except.error PyExc.fileNotFoundError
    ∧ MPS_InMemory.read mC8 3 = Except.error PyExc.indexError :=
  ⟨rfl, rfl, (read_missing_key_errors stC8 3 mC8 3 rfl rfl rfl rfl).1,
    (read_missing_key_errors stC8 3 mC8 3 rfl rfl rfl rfl).2⟩

/-- C9 counterexample: a step2sites call at site 2 (active bond 2) leaves
the spectrum previously stored at bond 1 in place — dmrg.step2sites never
invokes MPS.delete, so the superseded spectrum is not deleted as the
claim states. -/
theorem step2sites_no_spectrum_deletion :
    (step2sitesStoreEffect stC9 2 npL npR npS2).S 1 = some npS1 := rfl

/-- C9 (amended): one step2sites call writes exactly the two site tensors
at `site` and `site+1` and the new bond spectrum at `site`; every other
site-tensor entry (in either tier) and every other bond spectrum is left
unchanged, and no spectrum is deleted. -/
theorem step2sites_store_frame (st : MpsStore) (site : ℕ) (tl tr sp : NpTensor) (j b : ℕ)
    (hj1 : j ≠ site) (hj2 : j ≠ site + 1) (hb : b ≠ site) :
    (step2sitesStoreEffect st site tl tr sp).S site = some sp
    ∧ (step2sitesStoreEffect st site tl tr sp).S b = st.S b
    ∧ (step2sitesStoreEffect st site tl tr sp).ram j = st.ram j
    ∧ (step2sitesStoreEffect st site tl tr sp).disk j = st.disk j := by
  unfold step2sitesStoreEffect MPS.writeS MPS.write
  refine ⟨?_, ?_, ?_, ?_⟩ <;> split_ifs <;> simp [updO, hj1, hj2, hb]

/-- Witness for the amended C9 theorem at the concrete step at site 2. -/
theorem step2sites_store_frame_witness :
    ((0 : ℕ) ≠ 2)
    ∧ (step2sitesStoreEffect stC9 2 npL npR npS2).S 2 = some npS2
    ∧ (step2sitesStoreEffect stC9 2 npL npR npS2).S 3 = stC9.S 3
    ∧ (step2sitesStoreEffect stC9 2 npL npR npS2).ram 0 = stC9.ram 0 :=
  ⟨by decide,
    (step2sites_store_frame stC9 2 npL npR npS2 0 3 (by decide) (by decide) (by decide)).1,
    (step2sites_store_frame stC9 2 npL npR npS2 0 3 (by decide) (by decide) (by decide)).2.1,
    (step2sites_store_frame stC9 2 npL npR npS2 0 3 (by decide) (by decide) (by decide)).2.2.1⟩

/-- Helper for C4, leftward direction: if the stored boundary at site `s`
agrees with the full recomputation, each further leftward add reproduces
the next full recomputation. -/
lemma addIterL_eval {R : Type} [CommRing R] [StarRing R] (c : Chain R)
    (st : Dir → ℕ → T3 R) (s : ℕ) (h : st Dir.l s = CONT.left c s) :
    ∀ N, CONT.addIterL c st s N Dir.l (s + N) = CONT.left c (s + N) := by
  intro N
  induction N with
  | zero => exact h
  | succ n ih =>
    show CONT.add c (CONT.addIterL c st s n) (s + n + 1) Dir.l Dir.l (s + n + 1)
        = CONT.left c (s + n + 1)
    unfold CONT.add
    simp only [and_self, if_true, Nat.add_sub_cancel]
    rw [ih]
    rfl

/-- Helper for C4, rightward direction. -/
lemma addIterR_eval {R : Type} [CommRing R] [StarRing R] (c : Chain R)
    (st : Dir → ℕ → T3 R) (s : ℕ) (hs : s ≤ c.L - 1) (h : st Dir.r s = CONT.right c s) :
    ∀ N, N < s → CONT.addIterR c st s N Dir.r (s - N) = CONT.right c (s - N) := by
  intro N
  induction N with
  | zero => intro _; exact h
  | succ n ih =>
    intro hlt
    have hn : n < s := by omega
    show CONT.add c (CONT.addIterR c st s n) (s - (n + 1)) Dir.r Dir.r (s - (n + 1))
        = CONT.right c (s - (n + 1))
    unfold CONT.add
    simp only [and_self, if_true]
    have e1 : s - (n + 1) + 1 = s - n := by omega
    rw [e1, ih hn]
    unfold CONT.right
    have e2 : c.L - 1 - (s - (n + 1)) = (c.L - 1 - (s - n)) + 1 := by omega
    have e3 : c.L - 2 - (c.L - 1 - (s - n)) = s - (n + 1) := by omega
    rw [e2]
    show CONT.stepR (c.chi (s - (n + 1))) c.w c.d (c.mps (s - (n + 1))) (c.mpo (s - (n + 1)))
        (CONT.rightAux c (c.L - 1 - (s - n)))
      = CONT.stepR (c.chi (c.L - 2 - (c.L - 1 - (s - n)))) c.w c.d
        (c.mps (c.L - 2 - (c.L - 1 - (s - n)))) (c.mpo (c.L - 2 - (c.L - 1 - (s - n))))
        (CONT.rightAux c (c.L - 1 - (s - n)))
    rw [e3]

/-- C4: incremental environment maintenance agrees with full
recomputation.  If the stored boundary at site `s` equals `left(s)`, then
`N` leftward CONT.add calls leave `left(s+N)` stored at site `s+N`;
symmetrically, if the stored boundary at `s2` equals `right(s2)` and
`s2 - N2` stays within the chain, `N2` rightward adds leave
`right(s2-N2)` stored at `s2-N2`. -/
theorem cont_add_iter_eq_full_contraction {R : Type} [CommRing R] [StarRing R] (c : Chain R)
    (stL stR : Dir → ℕ → T3 R) (s N s2 N2 : ℕ) :
    (stL Dir.l s = CONT.left c s →
      CONT.addIterL c stL s N Dir.l (s + N) = CONT.left c (s + N))
    ∧ (s2 ≤ c.L - 1 → N2 < s2 → stR Dir.r s2 = CONT.right c s2 →
      CONT.addIterR c stR s2 N2 Dir.r (s2 - N2) = CONT.right c (s2 - N2)) :=
  ⟨fun h => addIterL_eval c stL s h N,
   fun h1 h2 h3 => addIterR_eval c stR s2 h1 h3 N2 h2⟩

/-- Witness for C4 on the concrete chain `chainW` with correctly seeded
environment stores: three leftward adds from site 2 and three rightward
adds from site 5. -/
theorem cont_add_iter_eq_full_contraction_witness :
    CONT.addIterL chainW stW 2 3 Dir.l (2 + 3) = CONT.left chainW (2 + 3)
    ∧ CONT.addIterR chainW stW 5 3 Dir.r (5 - 3) = CONT.right chainW (5 - 3) :=
  ⟨(cont_add_iter_eq_full_contraction chainW stW stW 2 3 5 3).1 rfl,
   (cont_add_iter_eq_full_contraction chainW stW stW 2 3 5 3).2 (by decide) (by decide) rfl⟩

/-- Helper for C7: shifting the start of the no-deflation trajectory by
one applied loop body. -/
lemma lancTrajFrom_shift {R V : Type} [LinearOrderedField R] (ops : LancOps R V)
    (excOn : Bool) (i : ℕ) (st : LancState R V) :
    ∀ n, lancTrajFrom ops excOn (i + 1) (lancBody ops excOn i st) n
      = lancTrajFrom ops excOn i st (n + 1) := by
  intro n
  induction n with
  | zero => rfl
  | succ m ih =>
    show lancBody ops excOn (i + 1 + m)
        (lancTrajFrom ops excOn (i + 1) (lancBody ops excOn i st) m)
      = lancBody ops excOn (i + (m + 1)) (lancTrajFrom ops excOn i st (m + 1))
    rw [ih]
    have : i + 1 + m = i + (m + 1) := by omega
    rw [this]

/-- Helper for C7: if the residual norm first falls below the threshold
after `n` loop bodies and the fuel allows reaching it, the loop breaks
there, returning the loop counter and the current `T` and basis. -/
lemma lancLoop_deflation {R V : Type} [LinearOrderedField R] (ops : LancOps R V)
    (excOn : Bool) (k : ℕ) :
    ∀ (n fuel i : ℕ) (st : LancState R V), n < fuel →
      (∀ j, j < n → ¬(ops.nrm (lancTrajFrom ops excOn i st j).psi < lancEps R)) →
      ops.nrm (lancTrajFrom ops excOn i st n).psi < lancEps R →
      lancLoop ops excOn k fuel i st
        = (i + n, (lancTrajFrom ops excOn i st n).T, (lancTrajFrom ops excOn i st n).vecs) := by
  intro n
  induction n with
  | zero =>
    intro fuel i st hf _ hdip
    obtain ⟨f, rfl⟩ : ∃ f, fuel = f + 1 := ⟨fuel - 1, by omega⟩
    show (if ops.nrm st.psi < lancEps R then (i, st.T, st.vecs)
          else lancLoop ops excOn k f (i + 1) (lancBody ops excOn i st))
        = (i + 0, (lancTrajFrom ops excOn i st 0).T, (lancTrajFrom ops excOn i st 0).vecs)
    rw [if_pos (show ops.nrm st.psi < lancEps R from hdip)]
    rfl
  | succ m ih =>
    intro fuel i st hf hbefore hdip
    obtain ⟨f, rfl⟩ : ∃ f, fuel = f + 1 := ⟨fuel - 1, by omega⟩
    have h0 : ¬(ops.nrm st.psi < lancEps R) :=
      show ¬(ops.nrm (lancTrajFrom ops excOn i st 0).psi < lancEps R) from
        hbefore 0 (Nat.succ_pos m)
    show (if ops.nrm st.psi < lancEps R then (i, st.T, st.vecs)
          else lancLoop ops excOn k f (i + 1) (lancBody ops excOn i st))
        = (i + (m + 1), (lancTrajFrom ops excOn i st (m + 1)).T,
            (lancTrajFrom ops excOn i st (m + 1)).vecs)
    rw [if_neg h0]
    have hb' : ∀ j, j < m →
        ¬(ops.nrm (lancTrajFrom ops excOn (i + 1) (lancBody ops excOn i st) j).psi
            < lancEps R) := by
      intro j hj
      rw [lancTrajFrom_shift]
      exact hbefore (j + 1) (by omega)
    have hd' : ops.nrm (lancTrajFrom ops excOn (i + 1) (lancBody ops excOn i st) m).psi
        < lancEps R := by
      rw [lancTrajFrom_shift]
      exact hdip
    rw [ih f (i + 1) (lancBody ops excOn i st) (by omega) hb' hd']
    rw [lancTrajFrom_shift]
    have : i + 1 + m = i + (m + 1) := by omega
    rw [this]

/-- C7: deflation in EffH.lanc_iter_old.  If the residual norm first
falls below the fixed threshold `1e-8` at loop iteration `i` (that is,
after `i - 1` completed loop bodies following the pre-loop step) with
`1 <= i < k`, the iteration breaks there and the returned tridiagonal
matrix is the `i x i` truncation: its recorded side length is `i` and its
entries are those accumulated in the `i` iterations actually performed.
The function returns normally — early termination raises nothing. -/
theorem lanc_iter_old_deflation_truncates {R V : Type} [LinearOrderedField R]
    (ops : LancOps R V) (excOn : Bool) (k : ℕ) (psi0 : V) (i : ℕ)
    (h1 : 1 ≤ i) (h2 : i < k)
    (hbefore : ∀ j, j < i - 1 →
      ¬(ops.nrm (lancTrajFrom ops excOn 1 (lancInit ops psi0) j).psi < lancEps R))
    (hdip : ops.nrm (lancTrajFrom ops excOn 1 (lancInit ops psi0) (i - 1)).psi < lancEps R) :
    (lancIterOld ops excOn k psi0).1 = i
    ∧ (lancIterOld ops excOn k psi0).2.1
        = (lancTrajFrom ops excOn 1 (lancInit ops psi0) (i - 1)).T := by
  have h := lancLoop_deflation ops excOn k (i - 1) (k - 1) 1 (lancInit ops psi0)
      (by omega) hbefore hdip
  unfold lancIterOld
  rw [h]
  exact ⟨by omega, rfl⟩

/-- Witness for C7: with the concrete numerics `wOps` (norm identically
zero) the deflation test fires at the first loop iteration of a `k = 3`
run, and the returned tridiagonal matrix has side length 1. -/
theorem lanc_iter_old_deflation_truncates_witness :
    (wOps.nrm (lancTrajFrom wOps false 1 (lancInit wOps (37 : ℚ)) 0).psi < lancEps ℚ)
    ∧ (lancIterOld wOps false 3 (37 : ℚ)).1 = 1 :=
  ⟨by norm_num [wOps, lancEps],
   (lanc_iter_old_deflation_truncates wOps false 3 37 1 (by omega) (by omega)
      (fun j hj => absurd hj (by omega)) (by norm_num [wOps, lancEps])).1⟩

end DMRG
